import Mathlib

/-!
Verification of the `terraform-provider-tss` secret provider.

This file shallowly embeds the provider's core logic:
* the ephemeral lease manager (`Open` / `Renew` in
  `internal/provider/ephemeral_resource_secrets.go`),
* the secret resource's value-resolution and reconciliation logic
  (`internal/provider/resource_secret.go`): `getSecretData`,
  `generatePassword`, the `Update` preserve loop, `flattenSecret`,
  `reorderFieldsToMatchPlan`, `Delete`, and the two custom plan modifiers.

Terraform framework values (`types.String`, `types.Int64`, `types.Bool`) are
modelled by `TFString` (null / unknown / value) and `Option Int` / `Option Bool`
(`none` = null).  The remote store client (`server.Server`, an external
collaborator) is modelled as a record of functions returning `Except`.
-/

namespace TSS

/-- Model of the framework's `types.String`: null, unknown, or a known value. -/
inductive TFString where
  | null
  | unknown
  | value (s : String)
deriving DecidableEq, Repr

/-- `types.String.IsNull()`. -/
def TFString.isNull : TFString → Bool
  | .null => true
  | _ => false

/-- `types.String.ValueString()`: the known value, `""` for null/unknown. -/
def TFString.valueString : TFString → String
  | .value s => s
  | _ => ""

/-- One diagnostic as produced by `Diagnostics.AddError` / `AddWarning`
(summary and detail). -/
structure Diagnostic where
  summary : String
  detail : String
deriving DecidableEq, Repr

deriving instance DecidableEq for Except

/-! ## Ephemeral lease manager (`ephemeral_resource_secrets.go`) -/

/-- A secret as served by the remote store for the ephemeral path: only its
field table matters here (`secret.Field(name)` of the external SDK). -/
structure RemoteSecret where
  fields : List (String × String)
deriving DecidableEq, Repr

/-- The SDK's `secret.Field(name) -> (string, bool)`, the spec's
`extract-field` collaborator operation: lookup by field name. -/
def RemoteSecret.fieldValue (s : RemoteSecret) (name : String) : Option String :=
  (s.fields.find? (fun p => p.1 == name)).map (·.2)

/-- `SecretModel`: one entry of the ephemeral result set. -/
structure SecretModel where
  id : Int
  value : String
deriving DecidableEq, Repr

/-- `TSSSecretsPrivateData`: the struct marshalled into the private
carry-state between `Open` and `Renew`. -/
structure PrivateData where
  ids : List Int
  field : String
  secrets : List SecretModel
deriving DecidableEq, Repr

/-- Accumulated output of the per-id fetch-and-extract loop. -/
structure LoopOut where
  results : List SecretModel
  warnings : List Diagnostic
  errors : List Diagnostic
deriving DecidableEq, Repr

/-- Warning added when fetching one id fails (`Open`/`Renew`). -/
def fetchWarn (id : Int) (e : String) : Diagnostic :=
  ⟨"Secret Fetch Warning", "Failed to fetch secret with ID " ++ toString id ++ ": " ++ e⟩

/-- Error added when the requested field is absent from a fetched secret. -/
def fieldNotFound (f : String) : Diagnostic :=
  ⟨"Field Not Found", "Field " ++ f ++ " not found in the secret"⟩

/-- The per-id loop of `Open`: fetch each secret; on fetch failure add a
warning and skip the id; on missing field add an error and skip; otherwise
append the extracted value to the result set. -/
def openLoop (store : Int → Except String RemoteSecret) (fieldName : String) :
    List Int → LoopOut
  | [] => ⟨[], [], []⟩
  | id :: rest =>
    match store id with
    | .error e =>
      let r := openLoop store fieldName rest
      ⟨r.results, fetchWarn id e :: r.warnings, r.errors⟩
    | .ok secret =>
      match secret.fieldValue fieldName with
      | none =>
        let r := openLoop store fieldName rest
        ⟨r.results, r.warnings, fieldNotFound fieldName :: r.errors⟩
      | some v =>
        let r := openLoop store fieldName rest
        ⟨⟨id, v⟩ :: r.results, r.warnings, r.errors⟩

/-- The per-id loop of `Renew` (written out separately in the source; it
repeats `Open`'s fetch-and-extract logic). -/
def renewLoop (store : Int → Except String RemoteSecret) (fieldName : String) :
    List Int → LoopOut
  | [] => ⟨[], [], []⟩
  | id :: rest =>
    match store id with
    | .error e =>
      let r := renewLoop store fieldName rest
      ⟨r.results, fetchWarn id e :: r.warnings, r.errors⟩
    | .ok secret =>
      match secret.fieldValue fieldName with
      | none =>
        let r := renewLoop store fieldName rest
        ⟨r.results, r.warnings, fieldNotFound fieldName :: r.errors⟩
      | some v =>
        let r := renewLoop store fieldName rest
        ⟨⟨id, v⟩ :: r.results, r.warnings, r.errors⟩

/-- Result of one `Open`/`Renew` call.  `fetched` is the list of ids the call
attempted to fetch from the remote store (empty on the pre-flight error
paths); `carry` is the private data the call serialized via
`resp.Private.SetKey` (`none` when the call returned before serializing). -/
structure OpenResult where
  results : List SecretModel
  warnings : List Diagnostic
  errors : List Diagnostic
  fetched : List Int
  renewAt : Option Nat
  carry : Option PrivateData
deriving DecidableEq, Repr

/-- `TSSSecretsEphemeralResource.Open`: validate that ids and field are
present, run the fetch loop, set a deadline 5 minutes (300 seconds) from
`now`, and serialize `{IDs, Field, Secrets}` as private data. -/
def openEphemeral (store : Int → Except String RemoteSecret) (now : Nat)
    (ids : List Int) (field : TFString) : OpenResult :=
  if ids.length == 0 || field.isNull then
    { results := [], warnings := []
      errors := [⟨"Missing Required Field", "Both secret_ids and field are required"⟩]
      fetched := [], renewAt := none, carry := none }
  else
    let out := openLoop store field.valueString ids
    { results := out.results, warnings := out.warnings, errors := out.errors
      fetched := ids, renewAt := some (now + 5 * 60)
      carry := some { ids := ids, field := field.valueString, secrets := out.results } }

/-- `TSSSecretsEphemeralResource.Renew`: reject absent or incomplete private
data, re-run the fetch loop on the carried ids/field, set a new 5-minute
deadline, and re-serialize the private data with the fresh results. -/
def renewEphemeral (store : Int → Except String RemoteSecret) (now : Nat)
    (carry : Option PrivateData) : OpenResult :=
  match carry with
  | none =>
    { results := [], warnings := []
      errors := [⟨"Missing Private Data", "Private data was not found for renewal."⟩]
      fetched := [], renewAt := none, carry := none }
  | some pd =>
    if pd.ids.length == 0 || pd.field == "" then
      { results := [], warnings := []
        errors := [⟨"Missing Private Data Fields", "Secret ID and field are required."⟩]
        fetched := [], renewAt := none, carry := none }
    else
      let out := renewLoop store pd.field pd.ids
      { results := out.results, warnings := out.warnings, errors := out.errors
        fetched := pd.ids, renewAt := some (now + 5 * 60)
        carry := some { pd with secrets := out.results } }

/-! ## Secret resource data model (`resource_secret.go`) -/

/-- Digit-accumulator for `atoi`: succeeds only when every remaining
character is a decimal digit. -/
def parseDigitsAux : List Char → Nat → Option Nat
  | [], acc => some acc
  | c :: rest, acc =>
    if c.isDigit then parseDigitsAux rest (acc * 10 + (c.toNat - 48)) else none

/-- `strconv.Atoi`: an optional sign followed by at least one decimal digit;
`none` on any other input. -/
def atoi (s : String) : Option Int :=
  match s.toList with
  | [] => none
  | '-' :: rest =>
    match rest with
    | [] => none
    | _ => (parseDigitsAux rest 0).map (fun n => -(n : Int))
  | '+' :: rest =>
    match rest with
    | [] => none
    | _ => (parseDigitsAux rest 0).map (fun n => (n : Int))
  | cs => (parseDigitsAux cs 0).map (fun n => (n : Int))

/-- `strings.ToLower` (ASCII case folding, via the character list so that it
evaluates structurally). -/
def strToLower (s : String) : String := ⟨s.toList.map Char.toLower⟩

/-- `strings.EqualFold` (case-insensitive string equality). -/
def eqFold (a b : String) : Bool := strToLower a == strToLower b

/-- Whether the first character list begins the second. -/
def charsBeginWith : List Char → List Char → Bool
  | [], _ => true
  | _ :: _, [] => false
  | c :: cs, d :: ds => c == d && charsBeginWith cs ds

/-- Whether the needle occurs inside the haystack. -/
def charsContain (needle : List Char) : List Char → Bool
  | [] => needle.isEmpty
  | c :: rest => charsBeginWith needle (c :: rest) || charsContain needle rest

/-- `strings.Contains` (substring test). -/
def strContains (s sub : String) : Bool := charsContain sub.toList s.toList

/-- One entry of the resource state's `fields` list (`SecretField` in the
source; Terraform-side values, so null/unknown are representable). -/
structure SecretField where
  fieldName : TFString := .null
  itemValue : TFString := .null
  itemID : Option Int := none
  fieldID : Option Int := none
  fileAttachmentID : Option Int := none
  slug : TFString := .null
  fieldDescription : TFString := .null
  filename : TFString := .null
  isFile : Option Bool := none
  isNotes : Option Bool := none
  isPassword : Option Bool := none
  isList : Option Bool := none
  listType : TFString := .null
deriving DecidableEq, Repr

/-- `SshKeyArgs` block of the resource state. -/
structure SshKeyArgsTF where
  generatePassphrase : Option Bool := none
  generateSshKeys : Option Bool := none
deriving DecidableEq, Repr

/-- `SecretResourceState`: the durable Terraform state / plan of one secret. -/
structure SecretResourceState where
  id : TFString := .null
  name : TFString := .null
  folderID : TFString := .null
  siteID : TFString := .null
  secretTemplateID : TFString := .null
  fields : List SecretField := []
  sshKeyArgs : Option SshKeyArgsTF := none
  active : Option Bool := none
  secretPolicyID : Option Int := none
  passwordTypeWebScriptID : Option Int := none
  launcherConnectAsSecretID : Option Int := none
  checkOutIntervalMinutes : Option Int := none
  checkedOut : Option Bool := none
  checkOutEnabled : Option Bool := none
  autoChangeEnabled : Option Bool := none
  checkOutChangePasswordEnabled : Option Bool := none
  delayIndexing : Option Bool := none
  enableInheritPermissions : Option Bool := none
  enableInheritSecretPolicy : Option Bool := none
  proxyEnabled : Option Bool := none
  requiresComment : Option Bool := none
  sessionRecordingEnabled : Option Bool := none
  webLauncherRequiresIncognitoMode : Option Bool := none
deriving DecidableEq, Repr

/-- `server.SecretField` of the SDK: a field as sent to / returned by the
remote store (plain Go values). -/
structure ServerSecretField where
  fieldDescription : String := ""
  fieldID : Int := 0
  fieldName : String := ""
  fileAttachmentID : Int := 0
  filename : String := ""
  isFile : Bool := false
  isNotes : Bool := false
  isPassword : Bool := false
  itemValue : String := ""
  itemID : Int := 0
  slug : String := ""
deriving DecidableEq, Repr

/-- `server.SshKeyArgs` of the SDK. -/
structure SshKeyArgsGo where
  generatePassphrase : Bool := false
  generateSshKeys : Bool := false
deriving DecidableEq, Repr

/-- `server.Secret` of the SDK: the record exchanged with the remote store. -/
structure ServerSecret where
  id : Int := 0
  name : String := ""
  folderID : Int := 0
  siteID : Int := 0
  secretTemplateID : Int := 0
  fields : List ServerSecretField := []
  active : Bool := false
  sshKeyArgs : Option SshKeyArgsGo := none
  secretPolicyID : Int := 0
  passwordTypeWebScriptID : Int := 0
  launcherConnectAsSecretID : Int := 0
  checkOutIntervalMinutes : Int := 0
  checkedOut : Bool := false
  checkOutEnabled : Bool := false
  autoChangeEnabled : Bool := false
  checkOutChangePasswordEnabled : Bool := false
  delayIndexing : Bool := false
  enableInheritPermissions : Bool := false
  enableInheritSecretPolicy : Bool := false
  proxyEnabled : Bool := false
  requiresComment : Bool := false
  sessionRecordingEnabled : Bool := false
  webLauncherRequiresIncognitoMode : Bool := false
deriving DecidableEq, Repr

/-- `server.SecretTemplateField`: one field definition of a template. -/
structure SecretTemplateField where
  id : Int := 0
  name : String := ""
  fieldSlugName : String := ""
  description : String := ""
  isFile : Bool := false
  isNotes : Bool := false
  isPassword : Bool := false
deriving DecidableEq, Repr

/-- `server.SecretTemplate`. -/
structure SecretTemplate where
  id : Int := 0
  name : String := ""
  fields : List SecretTemplateField := []
deriving DecidableEq, Repr

/-- The remote-store client (`server.Server`), an external collaborator:
a record of its operations, each of which may fail. -/
structure Client where
  secretTemplate : Int → Except String SecretTemplate
  generatePassword : String → SecretTemplate → Except String String
  secret : Int → Except String ServerSecret
  createSecret : ServerSecret → Except String ServerSecret
  updateSecret : ServerSecret → Except String ServerSecret
  deleteSecret : Int → Except String Unit

/-! ## Template binding -/

/-- The template-matching loop of `generatePassword` (resource_secret.go,
lines 910-920): scan templates in declaration order, take the first field for
which any rule matches — non-zero id equality, case-insensitive name
equality, or case-insensitive slug equality. -/
def findTemplateFieldGen (fieldID : Int) (fieldName : String) :
    List SecretTemplateField → Option SecretTemplateField
  | [] => none
  | tf :: rest =>
    if (decide (fieldID > 0) && (tf.id == fieldID)) || eqFold tf.name fieldName
        || eqFold tf.fieldSlugName fieldName then
      some tf
    else
      findTemplateFieldGen fieldID fieldName rest

/-- The template-matching loop of `getSecretData` (lines 1044-1074): scan
templates in declaration order, take the first field whose name or slug
matches case-insensitively (the numeric id is not consulted). -/
def findTemplateFieldData (fieldName : String) :
    List SecretTemplateField → Option SecretTemplateField
  | [] => none
  | record :: rest =>
    if eqFold record.name fieldName || eqFold record.fieldSlugName fieldName then
      some record
    else
      findTemplateFieldData fieldName rest

/-- Modelled from the spec (§4.1): the strict-priority binder the spec
describes — try the id rule over the whole template first, only then the
name rule, only then the slug rule.  Used only for comparison with the
binder translated from the source. -/
def bindTemplateFieldSpec (fieldID : Int) (fieldName : String)
    (tfs : List SecretTemplateField) : Option SecretTemplateField :=
  let byName :=
    match tfs.find? (fun tf => eqFold tf.name fieldName) with
    | some tf => some tf
    | none => tfs.find? (fun tf => eqFold tf.fieldSlugName fieldName)
  if fieldID ≠ 0 then
    match tfs.find? (fun tf => tf.id == fieldID) with
    | some tf => some tf
    | none => byName
  else byName

/-! ## `getSecretData`: desired state → remote-store record -/

/-- The per-field body of `getSecretData`'s construction loop: bind the field
to its template definition (error if unmatched), coerce a null declared value
to the empty string, and copy the canonical attributes from the template. -/
def bindField (template : SecretTemplate) (field : SecretField) :
    Except String ServerSecretField :=
  let fieldName := field.fieldName.valueString
  match findTemplateFieldData fieldName template.fields with
  | none => .error ("field '" ++ fieldName ++ "' not found in secret template")
  | some templateField =>
    let itemValue := if field.itemValue.isNull then "" else field.itemValue.valueString
    let base : ServerSecretField :=
      { fieldDescription := templateField.description
        fieldID := templateField.id
        fieldName := templateField.name
        fileAttachmentID := 0
        isFile := templateField.isFile
        isNotes := templateField.isNotes
        isPassword := templateField.isPassword
        itemValue := itemValue
        slug := templateField.fieldSlugName }
    if templateField.isFile || (!field.isFile.isNone && field.isFile.getD false) then
      .ok { base with
        fileAttachmentID := match field.fileAttachmentID with | some n => n | none => 0
        filename := if field.filename.isNull then "" else field.filename.valueString }
    else
      .ok base

/-- `getSecretData`: parse the three placement identifiers (pre-flight,
failing the operation with a descriptive error), fetch the template, bind and
build every declared field, and assemble the `server.Secret` to submit. -/
def getSecretData (client : Client) (state : SecretResourceState) :
    Except String ServerSecret := do
  let folderID ← match atoi state.folderID.valueString with
    | some n => Except.ok n
    | none => Except.error "invalid Folder ID"
  let siteID ← match atoi state.siteID.valueString with
    | some n => Except.ok n
    | none => Except.error "invalid Site ID"
  let templateID ← match atoi state.secretTemplateID.valueString with
    | some n => Except.ok n
    | none => Except.error "invalid Template ID"
  let template ← match client.secretTemplate templateID with
    | .ok t => Except.ok t
    | .error e => Except.error ("failed to retrieve secret template: " ++ e)
  let fields ← state.fields.mapM (bindField template)
  Except.ok
    { name := state.name.valueString
      folderID := folderID
      siteID := siteID
      secretTemplateID := templateID
      fields := fields
      active := state.active.getD false
      sshKeyArgs := state.sshKeyArgs.map (fun a =>
        { generatePassphrase := a.generatePassphrase.getD false
          generateSshKeys := a.generateSshKeys.getD false })
      secretPolicyID := state.secretPolicyID.getD 0
      passwordTypeWebScriptID := state.passwordTypeWebScriptID.getD 0
      launcherConnectAsSecretID := state.launcherConnectAsSecretID.getD 0
      checkOutIntervalMinutes := state.checkOutIntervalMinutes.getD 0
      checkedOut := state.checkedOut.getD false
      checkOutEnabled := state.checkOutEnabled.getD false
      autoChangeEnabled := state.autoChangeEnabled.getD false
      checkOutChangePasswordEnabled := state.checkOutChangePasswordEnabled.getD false
      delayIndexing := state.delayIndexing.getD false
      enableInheritPermissions := state.enableInheritPermissions.getD false
      enableInheritSecretPolicy := state.enableInheritSecretPolicy.getD false
      proxyEnabled := state.proxyEnabled.getD false
      requiresComment := state.requiresComment.getD false
      sessionRecordingEnabled := state.sessionRecordingEnabled.getD false
      webLauncherRequiresIncognitoMode := state.webLauncherRequiresIncognitoMode.getD false }

/-! ## `generatePassword`: create-time password generation -/

/-- The per-field body of `generatePassword`'s loop: when the field binds to
a password-capable template field and its declared value is empty, request a
generated value (parameterized by the template field's slug); otherwise keep
the field unchanged. -/
def generatePasswordField (client : Client) (template : SecretTemplate)
    (field : ServerSecretField) : Except String ServerSecretField :=
  match findTemplateFieldGen field.fieldID field.fieldName template.fields with
  | none => .ok field
  | some templateField =>
    if templateField.isPassword then
      if field.itemValue == "" then
        match client.generatePassword templateField.fieldSlugName template with
        | .ok generated => .ok { field with itemValue := generated }
        | .error e =>
          .error ("failed to generate password for field " ++ field.fieldName ++ ": " ++ e)
      else .ok field
    else .ok field

/-- `generatePassword` (the resource method used by `Create`): build the
secret via `getSecretData`, re-fetch the template, then fill empty
password-capable fields with generated values. -/
def generatePasswordSecret (client : Client) (state : SecretResourceState) :
    Except String ServerSecret := do
  let secret ← getSecretData client state
  let templateID ← match atoi state.secretTemplateID.valueString with
    | some n => Except.ok n
    | none => Except.error "invalid Template ID"
  let template ← match client.secretTemplate templateID with
    | .ok t => Except.ok t
    | .error e => Except.error ("failed to retrieve secret template: " ++ e)
  let fields ← secret.fields.mapM (generatePasswordField client template)
  Except.ok { secret with fields := fields }

/-! ## `flattenSecret`: remote-store record → durable state -/

/-- The per-field body of `flattenSecret`'s loop: every remote field value is
stored as a concrete (non-null) string — `types.StringValue(f.ItemValue)` —
so an empty remote value becomes the empty string, never null. -/
def flattenField (f : ServerSecretField) : SecretField :=
  let base : SecretField :=
    { fieldName := .value f.fieldName
      itemValue := .value f.itemValue
      itemID := some f.itemID
      fieldID := some f.fieldID
      fileAttachmentID := some f.fileAttachmentID
      slug := .value f.slug
      fieldDescription := .value f.fieldDescription
      filename := .value f.filename
      isFile := some f.isFile
      isNotes := some f.isNotes
      isPassword := some f.isPassword }
  let withFile :=
    if f.isFile then
      { base with
        fileAttachmentID := some f.fileAttachmentID
        filename := if f.filename != "" then .value f.filename else base.filename }
    else base
  let isSSHKeyField :=
    strContains (strToLower f.fieldName) "key" || strContains (strToLower f.fieldName) "passphrase"
  if isSSHKeyField && f.filename != "" then
    { withFile with filename := .value f.filename }
  else withFile

/-- `flattenSecret`: turn the remote store's record into the durable state. -/
def flattenSecret (secret : ServerSecret) : SecretResourceState :=
  { name := .value secret.name
    id := .value (toString secret.id)
    folderID := .value (toString secret.folderID)
    siteID := .value (toString secret.siteID)
    secretTemplateID := .value (toString secret.secretTemplateID)
    fields := secret.fields.map flattenField
    active := some secret.active
    sshKeyArgs := secret.sshKeyArgs.map (fun a =>
      { generatePassphrase := some a.generatePassphrase
        generateSshKeys := some a.generateSshKeys })
    secretPolicyID := if secret.secretPolicyID ≠ 0 then some secret.secretPolicyID else none
    passwordTypeWebScriptID :=
      if secret.passwordTypeWebScriptID ≠ 0 then some secret.passwordTypeWebScriptID else none
    launcherConnectAsSecretID :=
      if secret.launcherConnectAsSecretID ≠ 0 then some secret.launcherConnectAsSecretID else none
    checkOutIntervalMinutes :=
      if secret.checkOutIntervalMinutes ≠ 0 then some secret.checkOutIntervalMinutes else none
    checkedOut := some secret.checkedOut
    checkOutEnabled := some secret.checkOutEnabled
    autoChangeEnabled := some secret.autoChangeEnabled
    checkOutChangePasswordEnabled := some secret.checkOutChangePasswordEnabled
    delayIndexing := some secret.delayIndexing
    enableInheritPermissions := some secret.enableInheritPermissions
    enableInheritSecretPolicy := some secret.enableInheritSecretPolicy
    proxyEnabled := some secret.proxyEnabled
    requiresComment := some secret.requiresComment
    sessionRecordingEnabled := some secret.sessionRecordingEnabled
    webLauncherRequiresIncognitoMode := some secret.webLauncherRequiresIncognitoMode }

/-! ## Plan modifiers for the `itemvalue` attribute

The schema attaches three string plan modifiers to every field's `itemvalue`:
`UseStateForUnknown` (framework-provided), `sshKeyFieldPlanModifier`, and
`passwordFieldPlanModifier`, run in that order, each receiving the previous
one's planned value.  `stateRawNull` is `req.State.Raw.IsNull()` (true exactly
for a create operation). -/

/-- The framework's `stringplanmodifier.UseStateForUnknown`: copy the prior
state value into the plan only when the state is non-null, the planned value
is unknown, and the configured value is not unknown. -/
def useStateForUnknownModify (config state plan : TFString) : TFString :=
  if state.isNull then plan
  else if plan ≠ TFString.unknown then plan
  else if config = TFString.unknown then plan
  else state

/-- `shouldComputeSshKeyValue`: only during create, never when the caller
explicitly configured an empty string, and only for a `fields[*].itemvalue`
path (`pathOk`); then compute exactly when the planned value is empty. -/
def shouldComputeSshKeyValue (stateRawNull pathOk : Bool) (config plan : TFString) : Bool :=
  if !stateRawNull then false
  else if !config.isNull && config.valueString == "" then false
  else if !pathOk then false
  else plan.valueString == ""

/-- `sshKeyFieldPlanModifier.PlanModifyString`. -/
def sshKeyPlanModify (stateRawNull pathOk : Bool) (config state plan : TFString) : TFString :=
  if !config.isNull then config
  else if !state.isNull && state.valueString != "" then state
  else if stateRawNull && (plan.isNull || plan.valueString == "")
      && shouldComputeSshKeyValue stateRawNull pathOk config plan then
    TFString.unknown
  else if plan.isNull then TFString.value ""
  else plan

/-- `shouldComputePasswordValue`: only during create, and never when the
caller explicitly configured an empty string. -/
def shouldComputePasswordValue (stateRawNull : Bool) (config : TFString) : Bool :=
  if !stateRawNull then false
  else if !config.isNull && config.valueString == "" then false
  else true

/-- `passwordFieldPlanModifier.PlanModifyString`. -/
def passwordPlanModify (stateRawNull : Bool) (config state plan : TFString) : TFString :=
  if !config.isNull && config.valueString != "" then config
  else if (!state.isNull && state.valueString != "")
      && (config.isNull || config.valueString == "") then state
  else if stateRawNull && (plan.isNull || plan.valueString == "")
      && shouldComputePasswordValue stateRawNull config then
    TFString.unknown
  else plan

/-- The full modifier chain for one field's `itemvalue`: the initial planned
value is the configured value, then the three modifiers run in schema order
(the path of the attribute is always `fields[i].itemvalue`, so `pathOk` is
true). -/
def planItemValue (stateRawNull : Bool) (config state : TFString) : TFString :=
  let p1 := useStateForUnknownModify config state config
  let p2 := sshKeyPlanModify stateRawNull true config state p1
  passwordPlanModify stateRawNull config state p2

/-! ## `Update`: the SSH-key / password preserve loop -/

/-- First state field whose name matches case-insensitively (the lookup the
`Update` preserve loops perform with `strings.EqualFold`). -/
def findFieldFold (fields : List SecretField) (name : String) : Option SecretField :=
  fields.find? (fun sf => eqFold sf.fieldName.valueString name)

/-- The SSH-key heuristic of `Update`/`Read`: a field name containing "key"
or "passphrase" (case-insensitively), when SSH key generation was requested. -/
def isSSHKeyName (hasSshKeyArgs : Bool) (name : String) : Bool :=
  hasSshKeyArgs && (strContains (strToLower name) "key" || strContains (strToLower name) "passphrase")

/-- The per-field body of `Update`'s preserve loop (resource_secret.go,
lines 611-673): for SSH-key or password fields, when the plan does not carry
a non-empty value for the field (or does not mention it), replace the value
about to be submitted with the prior state value; also carry the prior
filename forward. -/
def preserveOne (stateFields planFields : List SecretField) (hasSshKeyArgs : Bool)
    (field : ServerSecretField) : ServerSecretField :=
  let fieldName := field.fieldName
  let isSSHKeyField := isSSHKeyName hasSshKeyArgs fieldName
  let isPasswordField :=
    match findFieldFold stateFields fieldName with
    | some sf => !sf.isPassword.isNone && sf.isPassword.getD false
    | none => false
  if isSSHKeyField || isPasswordField then
    match findFieldFold stateFields fieldName with
    | none => field
    | some stateField =>
      let f1 :=
        match planFields.find? (fun pf => eqFold pf.fieldName.valueString fieldName) with
        | some planField =>
          if planField.itemValue.isNull || planField.itemValue.valueString == "" then
            { field with itemValue := stateField.itemValue.valueString }
          else field
        | none => { field with itemValue := stateField.itemValue.valueString }
      if !stateField.filename.isNull && stateField.filename.valueString != "" then
        { f1 with filename := stateField.filename.valueString }
      else f1
  else field

/-- `TssSecretResource.Update` up to and including the remote `UpdateSecret`
call: drop the SSH-key args from the submission, build the secret via
`getSecretData`, run the preserve loop, parse the durable id (fatal on
failure), and submit.  Returns the secret submitted to the remote store. -/
def updateSecretData (client : Client) (plan state : SecretResourceState) :
    Except String ServerSecret := do
  let hasSshKeyArgs :=
    match state.sshKeyArgs with
    | some a => a.generateSshKeys.getD false || a.generatePassphrase.getD false
    | none => false
  let updatePlan := { plan with sshKeyArgs := none }
  let updatedSecret ← getSecretData client updatePlan
  let fields := updatedSecret.fields.map (preserveOne state.fields plan.fields hasSshKeyArgs)
  let ustoi ← match atoi state.id.valueString with
    | some n => Except.ok n
    | none => Except.error "Error converting ID from string to int"
  let submitted := { updatedSecret with fields := fields, id := ustoi }
  let _ ← client.updateSecret submitted
  Except.ok submitted

/-! ## `reorderFieldsToMatchPlan` -/

/-- Lowercased field name, the key of the reorder map. -/
def lowerName (f : SecretField) : String := strToLower f.fieldName.valueString

/-- The `stateFieldMap` of `reorderFieldsToMatchPlan`: a Go map built by
inserting every state field keyed by its lowercased name — a later field with
the same key overwrites an earlier one. -/
def stateFieldMapLookup (stateFields : List SecretField) (key : String) :
    Option SecretField :=
  stateFields.foldl (fun acc f => if lowerName f == key then some f else acc) none

/-- Phase 1 of `reorderFieldsToMatchPlan`: walk the plan in order and emit
the same-named state field when the map has one (a plan field with no match
is dropped with a warning). -/
def reorderPhase1 (planFields stateFields : List SecretField) : List SecretField :=
  planFields.filterMap (fun pf => stateFieldMapLookup stateFields (lowerName pf))

/-- `reorderFieldsToMatchPlan`: phase 1, then append every state field whose
name (case-insensitively) does not yet occur in the accumulated result. -/
def reorderFieldsToMatchPlan (planFields stateFields : List SecretField) :
    List SecretField :=
  stateFields.foldl
    (fun acc st =>
      if acc.any (fun r => eqFold st.fieldName.valueString r.fieldName.valueString) then acc
      else acc ++ [st])
    (reorderPhase1 planFields stateFields)

/-! ## `Delete` -/

/-- Outcome of `TssSecretResource.Delete`: the id passed to the remote
`DeleteSecret` call (`none` if no remote call was made) and the diagnostics
added. -/
structure DeleteOutcome where
  deletedId : Option Int
  errors : List Diagnostic
deriving DecidableEq, Repr

/-- `TssSecretResource.Delete`: parse the durable id — an `Atoi` failure is
only logged, not surfaced, and leaves the id variable at Go's zero value —
then call the remote `DeleteSecret` with it. -/
def deleteResource (client : Client) (state : SecretResourceState) : DeleteOutcome :=
  let idtoi := (atoi state.id.valueString).getD 0
  match client.deleteSecret idtoi with
  | .ok _ => { deletedId := some idtoi, errors := [] }
  | .error e =>
    { deletedId := some idtoi
      errors := [⟨"Secret Deletion Error", "Failed to delete secret: " ++ e⟩] }

/-! ## Helper lemmas -/

/-- Rewriting lemma: `openLoop` on a cons whose fetch fails. -/
theorem openLoop_cons_error {store : Int → Except String RemoteSecret} {f : String}
    {a : Int} {e : String} (rest : List Int) (h : store a = .error e) :
    openLoop store f (a :: rest) =
      { results := (openLoop store f rest).results
        warnings := fetchWarn a e :: (openLoop store f rest).warnings
        errors := (openLoop store f rest).errors } := by
  simp only [openLoop, h]

/-- Rewriting lemma: `openLoop` on a cons whose fetch succeeds but whose
secret misses the requested field. -/
theorem openLoop_cons_missing {store : Int → Except String RemoteSecret} {f : String}
    {a : Int} {s : RemoteSecret} (rest : List Int)
    (h : store a = .ok s) (hv : s.fieldValue f = none) :
    openLoop store f (a :: rest) =
      { results := (openLoop store f rest).results
        warnings := (openLoop store f rest).warnings
        errors := fieldNotFound f :: (openLoop store f rest).errors } := by
  simp only [openLoop, h, hv]

/-- Rewriting lemma: `openLoop` on a cons whose fetch and extraction both
succeed. -/
theorem openLoop_cons_ok {store : Int → Except String RemoteSecret} {f : String}
    {a : Int} {s : RemoteSecret} {v : String} (rest : List Int)
    (h : store a = .ok s) (hv : s.fieldValue f = some v) :
    openLoop store f (a :: rest) =
      { results := ⟨a, v⟩ :: (openLoop store f rest).results
        warnings := (openLoop store f rest).warnings
        errors := (openLoop store f rest).errors } := by
  simp only [openLoop, h, hv]

/-- The `itemvalue` a flattened field records is always the remote value,
wrapped as a concrete (non-null) string. -/
theorem flattenField_itemValue (f : ServerSecretField) :
    (flattenField f).itemValue = TFString.value f.itemValue := by
  unfold flattenField
  dsimp only
  split <;> split <;> rfl

/-- `Renew`'s fetch loop is the same computation as `Open`'s. -/
theorem renewLoop_eq_openLoop (store : Int → Except String RemoteSecret)
    (fieldName : String) (ids : List Int) :
    renewLoop store fieldName ids = openLoop store fieldName ids := by
  induction ids with
  | nil => rfl
  | cons id rest ih =>
    unfold renewLoop openLoop
    cases store id with
    | error e => simp [ih]
    | ok s =>
      cases s.fieldValue fieldName with
      | none => simp [ih]
      | some v => simp [ih]

/-! ## Concrete fixtures used by witnesses and counterexamples -/

/-- A remote store with one secret (id 1) carrying a password field. -/
def storeOne : Int → Except String RemoteSecret := fun i =>
  if i == 1 then .ok ⟨[("password", "s3cret")]⟩ else .error "no such secret"

/-- A client whose remote calls all succeed trivially; template lookups
return the password template below. -/
def templatePW : SecretTemplate :=
  { id := 7, name := "tpl"
    fields := [{ id := 1, name := "password", fieldSlugName := "password", isPassword := true }] }

def clientPW : Client :=
  { secretTemplate := fun _ => .ok templatePW
    generatePassword := fun _ _ => .ok "GENERATED"
    secret := fun _ => .error "unused"
    createSecret := fun s => .ok s
    updateSecret := fun s => .ok s
    deleteSecret := fun _ => .ok () }

/-! ## Claim theorems -/

/-- Claim C9: every durable record produced from a remote read stores a
concrete string value for every field — the flattened `itemvalue` is never
null, and equals the remote value verbatim (an empty remote value is stored
as the empty string). -/
theorem flatten_stores_concrete_values (s : ServerSecret) (g : SecretField)
    (hg : g ∈ (flattenSecret s).fields) :
    g.itemValue.isNull = false ∧ ∃ f ∈ s.fields, g.itemValue = TFString.value f.itemValue := by
  have hfields : (flattenSecret s).fields = s.fields.map flattenField := rfl
  rw [hfields] at hg
  obtain ⟨f, hf, rfl⟩ := List.mem_map.mp hg
  refine ⟨?_, f, hf, flattenField_itemValue f⟩
  rw [flattenField_itemValue]
  rfl

/-- Witness for C9: a remote secret whose field has the empty value is
durably recorded as the concrete empty string, not null. -/
theorem flatten_stores_concrete_values_witness :
    (flattenField { fieldName := "password", itemValue := "" }).itemValue.isNull = false ∧
    ∃ f ∈ ({ fields := [{ fieldName := "password", itemValue := "" }] } : ServerSecret).fields,
      (flattenField { fieldName := "password", itemValue := "" }).itemValue =
        TFString.value f.itemValue :=
  flatten_stores_concrete_values
    { fields := [{ fieldName := "password", itemValue := "" }] }
    (flattenField { fieldName := "password", itemValue := "" })
    (by simp [flattenSecret])

/-- Claim C10: ephemeral `Open` with an empty ids list or a null field name
fails with a "Missing Required Field" error before any remote fetch, and
`Renew` likewise rejects carry-state with an empty ids list or empty field
name before fetching. -/
theorem ephemeral_preflight_checks :
    (∀ (store : Int → Except String RemoteSecret) (now : Nat) (field : TFString),
      (openEphemeral store now [] field).errors =
        [⟨"Missing Required Field", "Both secret_ids and field are required"⟩] ∧
      (openEphemeral store now [] field).fetched = []) ∧
    (∀ (store : Int → Except String RemoteSecret) (now : Nat) (ids : List Int),
      (openEphemeral store now ids TFString.null).errors =
        [⟨"Missing Required Field", "Both secret_ids and field are required"⟩] ∧
      (openEphemeral store now ids TFString.null).fetched = []) ∧
    (∀ (store : Int → Except String RemoteSecret) (now : Nat) (f : String)
        (secrets : List SecretModel),
      (renewEphemeral store now (some ⟨[], f, secrets⟩)).errors =
        [⟨"Missing Private Data Fields", "Secret ID and field are required."⟩] ∧
      (renewEphemeral store now (some ⟨[], f, secrets⟩)).fetched = []) ∧
    (∀ (store : Int → Except String RemoteSecret) (now : Nat) (ids : List Int)
        (secrets : List SecretModel),
      (renewEphemeral store now (some ⟨ids, "", secrets⟩)).errors =
        [⟨"Missing Private Data Fields", "Secret ID and field are required."⟩] ∧
      (renewEphemeral store now (some ⟨ids, "", secrets⟩)).fetched = []) := by
  refine ⟨fun store now field => ?_, fun store now ids => ?_,
    fun store now f secrets => ?_, fun store now ids secrets => ?_⟩
  · simp [openEphemeral]
  · simp [openEphemeral, TFString.isNull]
  · simp [renewEphemeral]
  · simp [renewEphemeral]

/-- Claim C1 counterexample: the carry-state serialized by `Open` is not the
minimal tuple `{ids, field-name}` — the `Secrets` member of
`TSSSecretsPrivateData` is populated with the fetched results, so the fetched
field value ("s3cret") is part of the serialized carry-state. -/
theorem open_carry_contains_fetched_values :
    (openEphemeral storeOne 0 [1] (TFString.value "password")).carry =
      some { ids := [1], field := "password", secrets := [{ id := 1, value := "s3cret" }] } := by
  decide

/-- Claim C1 (amended): `Open` serializes `{ids, field-name, fetched
secrets}` as carry-state; the cached secret values are dead weight — `Renew`'s
entire outcome (results, warnings, errors, deadline, re-serialized
carry-state) is independent of the `secrets` stored in the carry-state, so
each renewal re-fetches live values. -/
theorem carry_state_shape_and_renew_independence :
    (∀ (store : Int → Except String RemoteSecret) (now : Nat) (ids : List Int)
        (field : TFString), ids ≠ [] → field.isNull = false →
      (openEphemeral store now ids field).carry =
        some { ids := ids, field := field.valueString
               secrets := (openLoop store field.valueString ids).results }) ∧
    (∀ (store : Int → Except String RemoteSecret) (now : Nat) (ids : List Int)
        (f : String) (secrets secrets' : List SecretModel),
      renewEphemeral store now (some ⟨ids, f, secrets⟩) =
        renewEphemeral store now (some ⟨ids, f, secrets'⟩)) := by
  constructor
  · intro store now ids field hids hnull
    have hlen : (ids.length == 0) = false := by
      simpa using fun h => hids (List.length_eq_zero.mp h)
    simp [openEphemeral, hlen, hnull]
  · intro store now ids f secrets secrets'
    simp only [renewEphemeral]

/-- Witness for the amended C1 theorem: concrete instantiation of the
hypotheses. -/
theorem carry_state_shape_witness :
    (openEphemeral storeOne 0 [1] (TFString.value "password")).carry =
      some { ids := [1], field := (TFString.value "password").valueString
             secrets := (openLoop storeOne (TFString.value "password").valueString [1]).results } :=
  carry_state_shape_and_renew_independence.1 storeOne 0 [1] (TFString.value "password")
    (by decide) (by decide)

/-- Claim C5: the claim holds pre-flight for create/update (`getSecretData`)
and read (`readSecretByID`), but `Delete` only logs the `Atoi` failure and
proceeds to call the remote `DeleteSecret` with the zero id, reporting
success: evaluated at the failing input `id = "abc"`, the remote call is made
with id 0 and no diagnostic is recorded. -/
theorem delete_ignores_id_parse_failure :
    deleteResource clientPW { id := TFString.value "abc" } =
      { deletedId := some 0, errors := [] } ∧
    getSecretData clientPW { folderID := TFString.value "abc" } =
      .error "invalid Folder ID" := by
  constructor
  · decide
  · decide

/-- Claim C7: in ephemeral `Open`, a per-id fetch failure records one
non-fatal warning and omits only that id — every other id's value is in the
result set and no error is recorded — whereas the requested field being
absent on a successfully fetched secret makes the batch fail (a fatal error
is recorded), though the loop still continues. -/
theorem open_partial_fetch_policy :
    (∀ (store : Int → Except String RemoteSecret) (f : String) (ids : List Int)
        (j : Int) (e : String) (val : Int → String),
      store j = .error e →
      (∀ i ∈ ids, i ≠ j → ∃ s, store i = .ok s ∧ s.fieldValue f = some (val i)) →
      (openLoop store f ids).results =
          (ids.filter (fun i => i != j)).map (fun i => ⟨i, val i⟩) ∧
        (openLoop store f ids).warnings =
          (ids.filter (fun i => i == j)).map (fun i => fetchWarn i e) ∧
        (openLoop store f ids).errors = []) ∧
    (∀ (store : Int → Except String RemoteSecret) (f : String) (ids : List Int)
        (i : Int) (s : RemoteSecret),
      i ∈ ids → store i = .ok s → s.fieldValue f = none →
      (openLoop store f ids).errors ≠ []) := by
  constructor
  · intro store f ids j e val hj hok
    induction ids with
    | nil => exact ⟨rfl, rfl, rfl⟩
    | cons a rest ih =>
      have ihr := ih (fun i hi hne => hok i (List.mem_cons_of_mem a hi) hne)
      by_cases ha : a = j
      · subst ha
        rw [openLoop_cons_error rest hj]
        simp only [List.filter_cons]
        simp [ihr.1, ihr.2.1, ihr.2.2]
      · obtain ⟨s, hs, hv⟩ := hok a (List.mem_cons_self a rest) ha
        rw [openLoop_cons_ok rest hs hv]
        simp only [List.filter_cons]
        have hne : (a != j) = true := by simpa using ha
        have hne' : (a == j) = false := by simpa using ha
        simp [hne, hne', ihr.1, ihr.2.1, ihr.2.2]
  · intro store f ids i s hi hs hv
    induction ids with
    | nil => cases hi
    | cons a rest ih =>
      rcases List.mem_cons.mp hi with ha | ha
      · subst ha
        rw [openLoop_cons_missing rest hs hv]
        simp
      · have ihr := ih ha
        cases hsa : store a with
        | error e => rw [openLoop_cons_error rest hsa]; simpa using ihr
        | ok s' =>
          cases hva : s'.fieldValue f with
          | none => rw [openLoop_cons_missing rest hsa hva]; simp
          | some v => rw [openLoop_cons_ok rest hsa hva]; simpa using ihr

/-- Witness for C7: store with ids `[1, 2]` where id 2's fetch fails — the
result set has only id 1's value, one warning, no error; and a store where
the field is missing on id 1 records a fatal error. -/
theorem open_partial_fetch_policy_witness :
    ((openLoop (fun i => if i == 1 then .ok ⟨[("password", "s3cret")]⟩ else .error "boom")
        "password" [1, 2]).results =
      (([1, 2] : List Int).filter (fun i => i != 2)).map
        (fun i => ⟨i, (fun _ : Int => "s3cret") i⟩) ∧
      (openLoop (fun i => if i == 1 then .ok ⟨[("password", "s3cret")]⟩ else .error "boom")
        "password" [1, 2]).warnings =
        (([1, 2] : List Int).filter (fun i => i == 2)).map (fun i => fetchWarn i "boom") ∧
      (openLoop (fun i => if i == 1 then .ok ⟨[("password", "s3cret")]⟩ else .error "boom")
        "password" [1, 2]).errors = []) ∧
    (openLoop (fun _ => .ok ⟨[]⟩) "password" [1]).errors ≠ [] :=
  ⟨open_partial_fetch_policy.1
      (fun i => if i == 1 then .ok ⟨[("password", "s3cret")]⟩ else .error "boom")
      "password" [1, 2] 2 "boom" (fun _ => "s3cret") (by decide)
      (by
        intro i hi hne
        rcases List.mem_cons.mp hi with rfl | hi2
        · exact ⟨⟨[("password", "s3cret")]⟩, rfl, rfl⟩
        · rcases List.mem_cons.mp hi2 with rfl | h
          · exact absurd rfl hne
          · cases h),
    open_partial_fetch_policy.2 (fun _ => .ok ⟨[]⟩) "password" [1] 1 ⟨[]⟩
      (List.mem_cons_self 1 []) rfl rfl⟩

/-- Claim C8: for carry-state produced by an `Open` over a non-empty id list
and non-empty field name, `Renew` against the same (unchanged) store performs
the same per-id fetch-and-extract loop, yielding the same results, warnings
and errors, re-serializing the same carry-state, and setting its deadline a
constant 5 minutes after the current time. -/
theorem renew_is_reopen (store : Int → Except String RemoteSecret)
    (now now' : Nat) (ids : List Int) (f : String)
    (hids : ids ≠ []) (hf : f ≠ "") :
    (renewEphemeral store now' (openEphemeral store now ids (TFString.value f)).carry).results =
        (openEphemeral store now ids (TFString.value f)).results ∧
      (renewEphemeral store now' (openEphemeral store now ids (TFString.value f)).carry).warnings =
        (openEphemeral store now ids (TFString.value f)).warnings ∧
      (renewEphemeral store now' (openEphemeral store now ids (TFString.value f)).carry).errors =
        (openEphemeral store now ids (TFString.value f)).errors ∧
      (renewEphemeral store now' (openEphemeral store now ids (TFString.value f)).carry).fetched =
        (openEphemeral store now ids (TFString.value f)).fetched ∧
      (renewEphemeral store now' (openEphemeral store now ids (TFString.value f)).carry).carry =
        (openEphemeral store now ids (TFString.value f)).carry ∧
      (renewEphemeral store now' (openEphemeral store now ids (TFString.value f)).carry).renewAt =
        some (now' + 5 * 60) := by
  have hlen : (ids.length == 0) = false := by
    simpa using fun h => hids (List.length_eq_zero.mp h)
  have hfs : (f == "") = false := by simpa using hf
  simp [openEphemeral, renewEphemeral, hlen, hfs, TFString.isNull, TFString.valueString,
    renewLoop_eq_openLoop]

/-- Witness for C8: renewal over the carry-state of a concrete open
reproduces the open's outcome. -/
theorem renew_is_reopen_witness :
    (renewEphemeral storeOne 7 (openEphemeral storeOne 0 [1, 2] (TFString.value "password")).carry).results =
        (openEphemeral storeOne 0 [1, 2] (TFString.value "password")).results ∧
      (renewEphemeral storeOne 7 (openEphemeral storeOne 0 [1, 2] (TFString.value "password")).carry).warnings =
        (openEphemeral storeOne 0 [1, 2] (TFString.value "password")).warnings ∧
      (renewEphemeral storeOne 7 (openEphemeral storeOne 0 [1, 2] (TFString.value "password")).carry).errors =
        (openEphemeral storeOne 0 [1, 2] (TFString.value "password")).errors ∧
      (renewEphemeral storeOne 7 (openEphemeral storeOne 0 [1, 2] (TFString.value "password")).carry).fetched =
        (openEphemeral storeOne 0 [1, 2] (TFString.value "password")).fetched ∧
      (renewEphemeral storeOne 7 (openEphemeral storeOne 0 [1, 2] (TFString.value "password")).carry).carry =
        (openEphemeral storeOne 0 [1, 2] (TFString.value "password")).carry ∧
      (renewEphemeral storeOne 7 (openEphemeral storeOne 0 [1, 2] (TFString.value "password")).carry).renewAt =
        some (7 + 5 * 60) :=
  renew_is_reopen storeOne 0 7 [1, 2] "password" (by decide) (by decide)

/-- Coercing a declared value with `IsNull`/`ValueString` always yields
`ValueString` (null's value string is already empty). -/
theorem itemValue_coerce (v : TFString) :
    (if v.isNull then "" else v.valueString) = v.valueString := by
  cases v <;> rfl

/-- The value `bindField` submits for a field is the declared value's
`ValueString` (null coerced to the empty string). -/
theorem bindField_itemValue {template : SecretTemplate} {pf : SecretField}
    {sf : ServerSecretField} (h : bindField template pf = .ok sf) :
    sf.itemValue = pf.itemValue.valueString := by
  unfold bindField at h
  dsimp only at h
  cases hfind : findTemplateFieldData pf.fieldName.valueString template.fields with
  | none => rw [hfind] at h; cases h
  | some tf =>
    rw [hfind] at h
    dsimp only at h
    split at h <;> (injection h with h2; subst h2; exact itemValue_coerce pf.itemValue)

/-- When the caller declares null or an (explicit) empty string for a field
with a non-empty prior value, the `itemvalue` modifier chain plans the prior
value (the Preserve mechanism of the source's plan modifiers). -/
theorem planItemValue_preserves (config : TFString) (v : String)
    (hdecl : config.isNull = true ∨ config.valueString = "") (hv : v ≠ "") :
    planItemValue false config (TFString.value v) = TFString.value v := by
  have hvb : (v != "") = true := by simpa using hv
  cases config with
  | null =>
    simp [planItemValue, useStateForUnknownModify, sshKeyPlanModify, passwordPlanModify,
      TFString.isNull, TFString.valueString, hvb]
  | unknown =>
    simp [planItemValue, useStateForUnknownModify, sshKeyPlanModify, passwordPlanModify,
      TFString.isNull, TFString.valueString, hvb]
  | value s =>
    have hs : s = "" := by
      rcases hdecl with h | h
      · simp [TFString.isNull] at h
      · simpa [TFString.valueString] using h
    subst hs
    simp [planItemValue, useStateForUnknownModify, sshKeyPlanModify, passwordPlanModify,
      TFString.isNull, TFString.valueString, hvb]

/-- Claim C3: for every field whose declared value is null or (explicitly)
empty during an update and whose prior state value is a known non-empty
string, the prior value is carried forward unchanged into the value
submitted to the remote store — through the plan-modifier chain, the
`getSecretData` binding and the `Update` preserve loop — and a durable
record flattened from a remote echo of that submission records the same
value. -/
theorem update_preserves_prior_value
    (template : SecretTemplate) (stateFields planFields : List SecretField)
    (hasSshKeyArgs : Bool) (pf st : SecretField) (sf : ServerSecretField)
    (config : TFString) (v : String)
    (hdecl : config.isNull = true ∨ config.valueString = "") (hv : v ≠ "")
    (hplan : pf.itemValue = planItemValue false config (TFString.value v))
    (hbind : bindField template pf = .ok sf)
    (hstate : findFieldFold stateFields sf.fieldName = some st)
    (_hstval : st.itemValue = TFString.value v)
    (hplanfind : planFields.find? (fun q => eqFold q.fieldName.valueString sf.fieldName) = some pf) :
    (preserveOne stateFields planFields hasSshKeyArgs sf).itemValue = v ∧
    (flattenField (preserveOne stateFields planFields hasSshKeyArgs sf)).itemValue =
      TFString.value v := by
  have hpv : pf.itemValue = TFString.value v := by
    rw [hplan, planItemValue_preserves config v hdecl hv]
  have hsfv : sf.itemValue = v := by
    rw [bindField_itemValue hbind, hpv]; rfl
  have hvb : (v == "") = false := by simpa using hv
  have hcond : (pf.itemValue.isNull || pf.itemValue.valueString == "") = false := by
    rw [hpv]; simp [TFString.isNull, TFString.valueString, hvb]
  have hmain : (preserveOne stateFields planFields hasSshKeyArgs sf).itemValue = v := by
    unfold preserveOne
    dsimp only
    split
    · rw [hstate]
      dsimp only
      rw [hplanfind]
      dsimp only
      rw [hcond]
      simp only [Bool.false_eq_true, if_false]
      split <;> exact hsfv
    · exact hsfv
  exact ⟨hmain, by rw [flattenField_itemValue, hmain]⟩

/-- Prior state field and declared plan field used by the C2/C3 scenarios:
the caller previously stored "secret1" for the password field and now
declares an explicit empty string. -/
def priorPW : SecretField :=
  { fieldName := .value "password", itemValue := .value "secret1", isPassword := some true }

def planFieldPW : SecretField :=
  { fieldName := .value "password"
    itemValue := planItemValue false (TFString.value "") (TFString.value "secret1")
    isPassword := some true }

/-- The server-side field `bindField` produces for `planFieldPW` against
`templatePW`. -/
def boundPW : ServerSecretField :=
  { fieldID := 1, fieldName := "password", isPassword := true
    itemValue := "secret1", slug := "password" }

/-- Witness for C3: the concrete update scenario of the spec — password
declared empty, prior value "secret1" — carries "secret1" into the
submission and the flattened record. -/
theorem update_preserves_prior_value_witness :
    (preserveOne [priorPW] [planFieldPW] false boundPW).itemValue = "secret1" ∧
    (flattenField (preserveOne [priorPW] [planFieldPW] false boundPW)).itemValue =
      TFString.value "secret1" :=
  update_preserves_prior_value templatePW [priorPW] [planFieldPW] false planFieldPW priorPW
    boundPW (TFString.value "") "secret1" (Or.inr rfl) (by decide) (by decide) (by decide)
    (by decide) (by decide) (by decide)

/-- Durable state and plan for the C2 update scenario, and the declared
state for the C2 create scenario. -/
def statePW : SecretResourceState :=
  { id := .value "42", name := .value "s", folderID := .value "1", siteID := .value "1"
    secretTemplateID := .value "7", fields := [priorPW] }

def planPW : SecretResourceState := { statePW with fields := [planFieldPW] }

/-- The field declared for the create scenario: explicit empty string,
resolved through the modifier chain in the create phase. -/
def createFieldPW : SecretField :=
  { fieldName := .value "password"
    itemValue := planItemValue true (TFString.value "") TFString.null }

def createPW : SecretResourceState :=
  { statePW with id := TFString.null, fields := [createFieldPW] }

/-- Claim C2 counterexample: a field declared as the explicit empty string
with prior value "secret1" is submitted in the update phase as "secret1"
(Preserve fires), not as "" — and in the create phase a generated value is
requested for it (Generate fires). -/
theorem explicit_empty_counterexample :
    (updateSecretData clientPW planPW statePW).map (fun s => s.fields.map (·.itemValue)) =
      .ok ["secret1"] ∧
    (updateSecretData clientPW planPW statePW).map (fun s => s.fields.map (·.itemValue)) ≠
      .ok [""] ∧
    (generatePasswordSecret clientPW createPW).map (fun s => s.fields.map (·.itemValue)) =
      .ok ["GENERATED"] := by
  refine ⟨by decide, by decide, by decide⟩

/-- Claim C2 (amended): an explicit empty string does not suppress Preserve
or Generate in the submission path — in an update a non-empty prior value
wins over a declared empty string, and at create a password-capable field
with an empty submitted value still has a generated value requested; the
explicit empty string only suppresses the plan modifiers' marking of the
value as unknown/computed. -/
theorem explicit_empty_semantics :
    (∀ v : String, v ≠ "" →
      planItemValue false (TFString.value "") (TFString.value v) = TFString.value v) ∧
    shouldComputePasswordValue true (TFString.value "") = false ∧
    (∀ plan : TFString, shouldComputeSshKeyValue true true (TFString.value "") plan = false) ∧
    (∀ (client : Client) (template : SecretTemplate) (field : ServerSecretField)
        (tf : SecretTemplateField) (g : String),
      findTemplateFieldGen field.fieldID field.fieldName template.fields = some tf →
      tf.isPassword = true → field.itemValue = "" →
      client.generatePassword tf.fieldSlugName template = .ok g →
      generatePasswordField client template field = .ok { field with itemValue := g }) := by
  refine ⟨fun v hv => planItemValue_preserves _ v (Or.inr rfl) hv, rfl, fun plan => rfl,
    fun client template field tf g hfind htf hempty hgen => ?_⟩
  unfold generatePasswordField
  rw [hfind]
  dsimp only
  rw [htf, hempty]
  simp [hgen]

/-- Witness for the amended C2 theorem: concrete instantiations of every
hypothesis-bearing part. -/
theorem explicit_empty_semantics_witness :
    planItemValue false (TFString.value "") (TFString.value "secret1") =
      TFString.value "secret1" ∧
    generatePasswordField clientPW templatePW
        { fieldID := 1, fieldName := "password", isPassword := true, itemValue := ""
          slug := "password" } =
      .ok { fieldID := 1, fieldName := "password", isPassword := true
            itemValue := "GENERATED", slug := "password" } :=
  ⟨explicit_empty_semantics.1 "secret1" (by decide),
    explicit_empty_semantics.2.2.2 clientPW templatePW
      { fieldID := 1, fieldName := "password", isPassword := true, itemValue := ""
        slug := "password" }
      { id := 1, name := "password", fieldSlugName := "password", isPassword := true }
      "GENERATED" (by decide) rfl rfl rfl⟩

/-- Template used by the C4 counterexample: the desired field carries
template-field id 2, but the first template field already matches by name. -/
def templateC4 : SecretTemplate :=
  { fields := [{ id := 1, name := "password", fieldSlugName := "pw" },
               { id := 2, name := "other", fieldSlugName := "other" }] }

/-- Claim C4 counterexample: with a non-zero field id 2 and name "password",
the source binder returns the first template field (a name match with id 1)
even though an id match (id 2) exists — the spec's strict-priority binder
returns the id match instead. -/
theorem binder_priority_counterexample :
    findTemplateFieldGen 2 "password" templateC4.fields =
      some { id := 1, name := "password", fieldSlugName := "pw" } ∧
    bindTemplateFieldSpec 2 "password" templateC4.fields =
      some { id := 2, name := "other", fieldSlugName := "other" } ∧
    findTemplateFieldGen 2 "password" templateC4.fields ≠
      bindTemplateFieldSpec 2 "password" templateC4.fields := by
  refine ⟨by decide, by decide, by decide⟩

/-- Claim C4 (amended): the binder scans template fields in declaration
order and returns the first field satisfying any one of the three rules
(non-zero id equality, case-insensitive name equality, case-insensitive slug
equality) — a disjunction per template field, not a strict rule priority —
and `getSecretData`'s binder consults only name and slug; with a zero field
id the two binders agree. -/
theorem binder_first_match_semantics :
    (∀ (fieldID : Int) (fieldName : String) (tfs : List SecretTemplateField),
      findTemplateFieldGen fieldID fieldName tfs =
        tfs.find? (fun tf => (decide (fieldID > 0) && (tf.id == fieldID))
          || eqFold tf.name fieldName || eqFold tf.fieldSlugName fieldName)) ∧
    (∀ (fieldName : String) (tfs : List SecretTemplateField),
      findTemplateFieldData fieldName tfs =
        tfs.find? (fun tf => eqFold tf.name fieldName || eqFold tf.fieldSlugName fieldName)) ∧
    (∀ (fieldName : String) (tfs : List SecretTemplateField),
      findTemplateFieldGen 0 fieldName tfs = findTemplateFieldData fieldName tfs) := by
  refine ⟨fun fieldID fieldName tfs => ?_, fun fieldName tfs => ?_, fun fieldName tfs => ?_⟩
  · induction tfs with
    | nil => rfl
    | cons tf rest ih =>
      rw [findTemplateFieldGen, List.find?_cons]
      cases h : ((decide (fieldID > 0) && (tf.id == fieldID)) || eqFold tf.name fieldName
          || eqFold tf.fieldSlugName fieldName) with
      | true => simp [h]
      | false => simp [h, ih]
  · induction tfs with
    | nil => rfl
    | cons tf rest ih =>
      rw [findTemplateFieldData, List.find?_cons]
      cases h : (eqFold tf.name fieldName || eqFold tf.fieldSlugName fieldName) with
      | true => simp [h]
      | false => simp [h, ih]
  · induction tfs with
    | nil => rfl
    | cons tf rest ih =>
      rw [findTemplateFieldGen, findTemplateFieldData]
      have h0 : (decide ((0 : Int) > 0)) = false := by decide
      rw [h0, Bool.false_and, Bool.false_or]
      split
      next _ => rfl
      next _ => exact ih

/-! ## Reconciliation (`reorderFieldsToMatchPlan`) lemmas -/

/-- Folding the overwrite-map builder over fields none of which match the
key leaves the accumulator unchanged. -/
theorem foldl_overwrite_no_match (key : String) :
    ∀ (L : List SecretField) (acc : Option SecretField),
      (∀ f ∈ L, (lowerName f == key) = false) →
      L.foldl (fun acc f => if lowerName f == key then some f else acc) acc = acc
  | [], _, _ => rfl
  | f :: rest, acc, h => by
    rw [List.foldl_cons]
    have hf := h f (List.mem_cons_self f rest)
    rw [hf]
    simp only [Bool.false_eq_true, if_false]
    exact foldl_overwrite_no_match key rest acc (fun g hg => h g (List.mem_cons_of_mem f hg))

/-- With pairwise-distinct lowered names, the Go-map lookup (last write wins)
agrees with the first-match `find?`. -/
theorem stateFieldMapLookup_eq_find (key : String) :
    ∀ R : List SecretField, (R.map lowerName).Nodup →
      stateFieldMapLookup R key = R.find? (fun f => lowerName f == key)
  | [], _ => rfl
  | f :: rest, hnodup => by
    rw [List.map_cons, List.nodup_cons] at hnodup
    unfold stateFieldMapLookup
    rw [List.foldl_cons]
    by_cases hm : (lowerName f == key) = true
    · have hkey : lowerName f = key := by simpa using hm
      rw [if_pos hm]
      have hnone : ∀ g ∈ rest, (lowerName g == key) = false := by
        intro g hg
        rw [beq_eq_false_iff_ne]
        intro hEq
        exact hnodup.1 (by rw [hkey, ← hEq]; exact List.mem_map_of_mem lowerName hg)
      have hfc : List.find? (fun g => lowerName g == key) (f :: rest) = some f :=
        List.find?_cons_of_pos rest hm
      rw [foldl_overwrite_no_match key rest (some f) hnone, hfc]
    · have hfc : List.find? (fun g => lowerName g == key) (f :: rest) =
          List.find? (fun g => lowerName g == key) rest :=
        List.find?_cons_of_neg rest hm
      rw [if_neg hm, hfc]
      exact stateFieldMapLookup_eq_find key rest hnodup.2

/-- With pairwise-distinct lowered names, the first name match is invariant
under permutation of the searched list. -/
theorem find?_lowerName_perm {R R' : List SecretField} (key : String)
    (hnodup : (R.map lowerName).Nodup) (hperm : R'.Perm R) :
    R'.find? (fun f => lowerName f == key) = R.find? (fun f => lowerName f == key) := by
  cases h : R.find? (fun f => lowerName f == key) with
  | none =>
    rw [List.find?_eq_none] at h ⊢
    exact fun x hx => h x (hperm.mem_iff.mp hx)
  | some a =>
    have hpa := List.find?_some h
    have hma : a ∈ R := List.mem_of_find?_eq_some h
    cases h' : R'.find? (fun f => lowerName f == key) with
    | none =>
      rw [List.find?_eq_none] at h'
      exact absurd hpa (h' a (hperm.mem_iff.mpr hma))
    | some b =>
      have hpb := List.find?_some h'
      have hmb : b ∈ R := hperm.mem_iff.mp (List.mem_of_find?_eq_some h')
      have hab : b = a := by
        refine List.inj_on_of_nodup_map hnodup hmb hma ?_
        have h1 : lowerName b = key := by simpa using hpb
        have h2 : lowerName a = key := by simpa using hpa
        rw [h1, h2]
      rw [hab]

/-- Phase 1 of the reconciliation, over any permutation of the remote
fields with distinct lowered names: exactly the desired order, mapped to the
unique matching remote field. -/
theorem reorderPhase1_perm (D R R' : List SecretField)
    (hnodup : (R.map lowerName).Nodup) (hperm : R'.Perm R) :
    reorderPhase1 D R' =
      D.filterMap (fun d => R.find? (fun r => lowerName r == lowerName d)) := by
  unfold reorderPhase1
  have hnodup' : (R'.map lowerName).Nodup := ((hperm.map lowerName).nodup_iff).mpr hnodup
  congr 1
  funext pf
  rw [stateFieldMapLookup_eq_find (lowerName pf) R' hnodup',
    find?_lowerName_perm (lowerName pf) hnodup hperm]

/-- The leftover-append phase adds nothing when every remote field's name
already occurs in the accumulated result. -/
theorem foldl_append_no_new :
    ∀ (L acc : List SecretField),
      (∀ st ∈ L,
        acc.any (fun r => eqFold st.fieldName.valueString r.fieldName.valueString) = true) →
      L.foldl
        (fun acc st =>
          if acc.any (fun r => eqFold st.fieldName.valueString r.fieldName.valueString) then acc
          else acc ++ [st]) acc = acc
  | [], _, _ => rfl
  | st :: rest, acc, h => by
    rw [List.foldl_cons, if_pos (h st (List.mem_cons_self st rest))]
    exact foldl_append_no_new rest acc (fun g hg => h g (List.mem_cons_of_mem st hg))

/-- Fields used by the C6 counterexample and witness. -/
def fieldA : SecretField := { fieldName := .value "a" }

def fieldA' : SecretField := { fieldName := .value "a", itemID := some 1 }

def fieldB : SecretField := { fieldName := .value "b" }

def fieldB' : SecretField := { fieldName := .value "B", itemID := some 2 }

/-- Claim C6 counterexample: with D = [a] and R = [a', b], every name in D
has a same-named entry in R (the claim's hypothesis), yet the reconciled
sequence appends the unmatched remote field b — its length is 2 ≠ |D|, so it
is not D's order with R's matching entries. -/
theorem reorder_counterexample :
    ([fieldA].all (fun d => [fieldA', fieldB].any
        (fun r => eqFold r.fieldName.valueString d.fieldName.valueString))) = true ∧
    reorderFieldsToMatchPlan [fieldA] [fieldA', fieldB] = [fieldA', fieldB] ∧
    (reorderFieldsToMatchPlan [fieldA] [fieldA', fieldB]).length ≠
      ([fieldA] : List SecretField).length := by
  refine ⟨by decide, by decide, by decide⟩

/-- Claim C6 (amended): when additionally every remote name occurs
(case-insensitively) among the desired names and the remote names are
pairwise distinct, reconciling D against any permutation of R yields exactly
D's order, each entry being R's unique matching entry. -/
theorem reorder_order_invariance (D R R' : List SecretField)
    (hnodup : (R.map lowerName).Nodup)
    (hDR : ∀ d ∈ D, ∃ r ∈ R, lowerName r = lowerName d)
    (hRD : ∀ r ∈ R, ∃ d ∈ D, lowerName d = lowerName r)
    (hperm : R'.Perm R) :
    reorderFieldsToMatchPlan D R' =
      D.filterMap (fun d => R.find? (fun r => lowerName r == lowerName d)) ∧
    ∀ d ∈ D, (R.find? (fun r => lowerName r == lowerName d)).isSome = true := by
  refine ⟨?_, fun d hd => ?_⟩
  case refine_2 =>
    obtain ⟨r, hr, hlr⟩ := hDR d hd
    rw [List.find?_isSome]
    exact ⟨r, hr, by rw [hlr]; simp⟩
  unfold reorderFieldsToMatchPlan
  rw [reorderPhase1_perm D R R' hnodup hperm]
  refine foldl_append_no_new R' _ ?_
  intro st hst
  have hstR : st ∈ R := hperm.mem_iff.mp hst
  obtain ⟨d, hd, hld⟩ := hRD st hstR
  have hfind : (R.find? (fun r => lowerName r == lowerName d)).isSome = true := by
    rw [List.find?_isSome]
    exact ⟨st, hstR, by rw [hld]; simp⟩
  obtain ⟨m, hm⟩ := Option.isSome_iff_exists.mp hfind
  have hmP : m ∈ D.filterMap (fun d => R.find? (fun r => lowerName r == lowerName d)) :=
    List.mem_filterMap.mpr ⟨d, hd, hm⟩
  have hlm : lowerName m = lowerName st := by
    have := List.find?_some hm
    have h1 : lowerName m = lowerName d := by simpa using this
    rw [h1, ← hld]
  rw [List.any_eq_true]
  refine ⟨m, hmP, ?_⟩
  show (strToLower st.fieldName.valueString == strToLower m.fieldName.valueString) = true
  have : lowerName st = lowerName m := hlm.symm
  simpa [lowerName] using this

/-- Witness for the amended C6 theorem: a reversed remote list (with a
case-varied name) reconciles to exactly the desired order and content. -/
theorem reorder_order_invariance_witness :
    reorderFieldsToMatchPlan [fieldA, fieldB] [fieldB', fieldA'] =
      [fieldA, fieldB].filterMap
        (fun d => [fieldA', fieldB'].find? (fun r => lowerName r == lowerName d)) ∧
    ([fieldA', fieldB'].find? (fun r => lowerName r == lowerName fieldA)).isSome = true :=
  ⟨(reorder_order_invariance [fieldA, fieldB] [fieldA', fieldB'] [fieldB', fieldA']
      (by decide) (by decide) (by decide) (by decide)).1,
    (reorder_order_invariance [fieldA, fieldB] [fieldA', fieldB'] [fieldB', fieldA']
      (by decide) (by decide) (by decide) (by decide)).2 fieldA (by decide)⟩

end TSS
